import Mathlib

/-!
Shallow embedding of the websocket coordinator and per-connection session logic
of the song-request server (src/websocket_server_actor.rs and
src/websocket_session_actor.rs).

The coordinator (WebsocketServerActor) owns two hash containers:
a HashMap from session id to the session's outbound Recipient, and a
HashMap from room name to the HashSet of member session ids.  We model a
HashMap as an association list and a HashSet as a duplicate-free list; list
order stands in for the (unspecified) iteration order of the hash containers.
The Recipient values are opaque addresses, so the handle map is modelled by
its key set.  Machine integers (usize session ids) are modelled as Nat: no
arithmetic is ever performed on them, only equality tests.
-/

namespace SongRequestServer

/-- State of the WebsocketServerActor: the key set of
recipients_by_session_id and the room-membership map session_ids_by_room_name
(websocket_server_actor.rs, lines 13-18).  The ThreadRng and the shared
app_state are passed explicitly to the operations that consume them. -/
structure ServerState where
  recipients_by_session_id : List Nat
  session_ids_by_room_name : List (String × List Nat)
deriving DecidableEq

/-- HashSet insert: adds the element if absent, leaves the set unchanged if
already present. -/
def insertId (l : List Nat) (id : Nat) : List Nat :=
  if id ∈ l then l else l ++ [id]

/-- HashMap get: the value stored under key k, looking at the first matching
entry of the association list. -/
def assocFind {α : Type} (m : List (String × α)) (k : String) : Option α :=
  match m with
  | [] => none
  | (k2, v) :: rest => if k2 = k then some v else assocFind rest k

/-- HashMap entry(name).or_insert_with(HashSet::new).insert(id): inserts id
into the member set stored under name, creating the entry if absent. -/
def roomInsert (rooms : List (String × List Nat)) (name : String) (id : Nat) :
    List (String × List Nat) :=
  match rooms with
  | [] => [(name, [id])]
  | (n, ids) :: rest =>
    if n = name then (n, insertId ids id) :: rest
    else (n, ids) :: roomInsert rest name id

/-- Removal of a session id from every room's member set, as done by the
loops in the Disconnect and Join handlers. -/
def eraseFromAllRooms (rooms : List (String × List Nat)) (id : Nat) :
    List (String × List Nat) :=
  rooms.map fun p => (p.1, p.2.erase id)

/-- Names of the rooms whose member set contained id before its removal,
exactly the room_names vector collected by the Disconnect and Join handlers
(remove returned true). -/
def vacatedRooms (rooms : List (String × List Nat)) (id : Nat) : List String :=
  (rooms.filter fun p => decide (id ∈ p.2)).map Prod.fst

/-- Inner loop of WebsocketServerActor::send_message (lines 39-47): for each
session id of the room, skip the excluded sender, look the id up in the
handle map and, when a recipient is registered, deliver the message.  The
result lists the (session id, message) deliveries performed, assuming every
do_send succeeds. -/
def sendLoop (recips : List Nat) (ids : List Nat) (message : String)
    (skip : Nat) : List (Nat × String) :=
  match ids with
  | [] => []
  | id :: rest =>
    if id ≠ skip then
      if id ∈ recips then (id, message) :: sendLoop recips rest message skip
      else sendLoop recips rest message skip
    else sendLoop recips rest message skip

/-- WebsocketServerActor::send_message (lines 36-49): fan a message out to the
members of a room, excluding skip_session_id, delivering only to session ids
registered in the handle map.  An absent room yields no deliveries. -/
def send_message (st : ServerState) (room_name : String) (message : String)
    (skip_session_id : Nat) : List (Nat × String) :=
  match assocFind st.session_ids_by_room_name room_name with
  | none => []
  | some session_ids =>
    sendLoop st.recipients_by_session_id session_ids message skip_session_id

/-- Member set of a room, with the absent room read as the empty set. -/
def roomMembersD (st : ServerState) (room_name : String) : List Nat :=
  (assocFind st.session_ids_by_room_name room_name).getD []

/-- Same loop as sendLoop, but with do_send allowed to fail: closedSinks lists
the session ids whose mailbox rejects the message.  The code calls
do_send(..).unwrap(), so a failed delivery panics the coordinator: the Bool
records whether a panic occurred, and the delivery list stops at the panic
(websocket_server_actor.rs, lines 42-44). -/
def sendLoopAttempt (recips closedSinks : List Nat) (ids : List Nat)
    (message : String) (skip : Nat) : List (Nat × String) × Bool :=
  match ids with
  | [] => ([], false)
  | id :: rest =>
    if id ≠ skip then
      if id ∈ recips then
        if id ∈ closedSinks then ([], true)
        else
          let r := sendLoopAttempt recips closedSinks rest message skip
          ((id, message) :: r.1, r.2)
      else sendLoopAttempt recips closedSinks rest message skip
    else sendLoopAttempt recips closedSinks rest message skip

/-- send_message in the presence of delivery failures, mirroring the unwrap on
each do_send result. -/
def send_message_attempt (st : ServerState) (closedSinks : List Nat)
    (room_name : String) (message : String) (skip : Nat) :
    List (Nat × String) × Bool :=
  match assocFind st.session_ids_by_room_name room_name with
  | none => ([], false)
  | some session_ids =>
    sendLoopAttempt st.recipients_by_session_id closedSinks session_ids message skip

/-- Handler of ConnectMessage (lines 61-82): the session id is the raw output
of the thread random number generator (passed here as the rng_value argument),
the recipient is stored under that id (a HashMap insert, which overwrites any
recipient already stored under a colliding id), and the id is auto-joined into
the requested room.  The drawn id is returned; no collision check is made. -/
def handleConnectMessage (st : ServerState) (room_name : String)
    (rng_value : Nat) : ServerState × Nat :=
  let session_id := rng_value
  let st1 : ServerState :=
    { recipients_by_session_id := insertId st.recipients_by_session_id session_id,
      session_ids_by_room_name := st.session_ids_by_room_name }
  let st2 : ServerState :=
    { recipients_by_session_id := st1.recipients_by_session_id,
      session_ids_by_room_name :=
        roomInsert st1.session_ids_by_room_name room_name session_id }
  (st2, session_id)

/-- Handler of DisconnectMessage (lines 90-112): when the id is registered,
its handle is removed and the id is removed from every room's member set;
otherwise nothing changes.  The handler performs no sends (the notification
block is commented out in the source), so the delivery list is empty. -/
def handleDisconnectMessage (st : ServerState) (websocket_session_id : Nat) :
    ServerState × List (Nat × String) :=
  if websocket_session_id ∈ st.recipients_by_session_id then
    ({ recipients_by_session_id :=
         st.recipients_by_session_id.erase websocket_session_id,
       session_ids_by_room_name :=
         eraseFromAllRooms st.session_ids_by_room_name websocket_session_id }, [])
  else (st, [])

/-- Handler of ClientMessage, the Relay operation (lines 125-131): fan the
payload out to the named room, excluding the sender.  The state is not
modified. -/
def handleClientMessage (st : ServerState) (session_id : Nat)
    (room_name : String) (message : String) : List (Nat × String) :=
  send_message st room_name message session_id

/-- Handler of ListRoomsMessage (lines 140-152): the names currently tracked
by the room-membership map. -/
def handleListRoomsMessage (st : ServerState) : List String :=
  st.session_ids_by_room_name.map Prod.fst

/-- Handler of JoinMessage (lines 166-192): remove the session from every
room (collecting the vacated room names), notify each vacated room with
"Someone disconnected" excluding session id 0, insert the session into the
target room (creating it if absent), and notify the target room with
"Someone connected" excluding the mover.  No check is made that session_id is
registered in the handle map. -/
def handleJoinMessage (st : ServerState) (session_id : Nat)
    (room_name : String) : ServerState × List (Nat × String) :=
  let room_names := vacatedRooms st.session_ids_by_room_name session_id
  let st1 : ServerState :=
    { recipients_by_session_id := st.recipients_by_session_id,
      session_ids_by_room_name :=
        eraseFromAllRooms st.session_ids_by_room_name session_id }
  let msgs1 := room_names.flatMap fun r => send_message st1 r "Someone disconnected" 0
  let st2 : ServerState :=
    { recipients_by_session_id := st1.recipients_by_session_id,
      session_ids_by_room_name :=
        roomInsert st1.session_ids_by_room_name room_name session_id }
  let msgs2 := send_message st2 room_name "Someone connected" session_id
  (st2, msgs1 ++ msgs2)

/-- Record of one song request.  The concrete record type is not under src
of this snapshot (only referenced); modelled from the spec: an element of the
"ordered list of request records", carrying the song_id field that
http_routes.rs reads. -/
structure SongRequest where
  song_id : String
deriving DecidableEq

/-- Per-room shared state, as constructed by the Broadcast handler
(websocket_server_actor.rs, lines 213-216): the enabled flag and the ordered
list of pending requests. -/
structure Playlist where
  song_requests_enabled : Bool
  song_requests : List SongRequest
deriving DecidableEq

/-- Escaping of the characters that need it inside a double-quoted string. -/
def escapeChar (c : Char) : List Char :=
  if c = '"' then ['\\', '"']
  else if c = '\\' then ['\\', '\\']
  else if c = '\n' then ['\\', 'n']
  else if c = '\t' then ['\\', 't']
  else if c = '\r' then ['\\', 'r']
  else [c]

/-- Double-quoted, escaped rendering of a string, as produced both by JSON
serialization of a string and by the Rust Debug formatter on the common
characters. -/
def quoteEscaped (s : String) : String :=
  ⟨'"' :: (s.data.flatMap escapeChar ++ ['"'])⟩

/-- Serialization of one song request record.  Modelled from the spec: the
record type's serde serialization is not under src of this snapshot; the
claims only ever evaluate it on the empty request list, where this function
is never applied. -/
def serializeSongRequest (r : SongRequest) : String :=
  "\x7b\"songId\":" ++ quoteEscaped r.song_id ++ "\x7d"

/-- serde_json::to_string of AppStateResponse (lines 200-205, 222-225): a
JSON object with the camelCase fields songRequestsEnabled and songRequests,
in declaration order. -/
def serializeAppStateResponse (enabled : Bool) (requests : List SongRequest) :
    String :=
  "\x7b\"songRequestsEnabled\":" ++ (if enabled then "true" else "false") ++
    ",\"songRequests\":[" ++
    String.intercalate "," (requests.map serializeSongRequest) ++ "]\x7d"

/-- Default playlist used when the room has no record in the shared state map
(lines 213-216). -/
def default_playlist : Playlist :=
  { song_requests_enabled := false, song_requests := [] }

/-- Payload serialized by the Broadcast handler (lines 211-225): the playlist
stored under the room's user id, with the default playlist when there is no
record. -/
def broadcastPayload (app : List (String × Playlist)) (user_id : String) :
    String :=
  let playlist := (assocFind app user_id).getD default_playlist
  serializeAppStateResponse playlist.song_requests_enabled playlist.song_requests

/-- Handler of BroadcastAppStateMessage (lines 207-230): serialize the room's
snapshot and fan it out to the room named by user_id with skip session id 0.
The shared state map is passed explicitly; the membership state is not
modified. -/
def handleBroadcastAppStateMessage (st : ServerState)
    (app : List (String × Playlist)) (user_id : String) :
    List (Nat × String) :=
  send_message st user_id (broadcastPayload app user_id) 0

/-- Coordinator operations, with the random number generator's output made an
explicit argument of connect. -/
inductive ServerOp where
  | connect (room_name : String) (rng_value : Nat)
  | disconnect (session_id : Nat)
  | join (session_id : Nat) (room_name : String)
  | clientMessage (session_id : Nat) (room_name : String) (message : String)
  | broadcastAppState (user_id : String)
  | listRooms
deriving DecidableEq

/-- State transition of one coordinator operation.  Relay, Broadcast and
ListRooms do not modify the membership state. -/
def step (st : ServerState) : ServerOp → ServerState
  | .connect room_name rng_value => (handleConnectMessage st room_name rng_value).1
  | .disconnect session_id => (handleDisconnectMessage st session_id).1
  | .join session_id room_name => (handleJoinMessage st session_id room_name).1
  | .clientMessage _ _ _ => st
  | .broadcastAppState _ => st
  | .listRooms => st

/-- State reached after a sequence of coordinator operations. -/
def runOps (st : ServerState) (ops : List ServerOp) : ServerState :=
  ops.foldl step st

/-- State of a freshly constructed WebsocketServerActor (lines 25-32): both
maps empty. -/
def initialState : ServerState :=
  { recipients_by_session_id := [], session_ids_by_room_name := [] }

/-- Well-formedness carried by the hash containers of the real state: the
handle map's key list and every room's member list are duplicate-free. -/
def WF (st : ServerState) : Prop :=
  st.recipients_by_session_id.Nodup ∧
  ∀ p ∈ st.session_ids_by_room_name, p.2.Nodup

/-- Invariant claimed by the spec: every session id present in any room's
member set is registered in the handle map. -/
def noDangling (st : ServerState) : Prop :=
  ∀ p ∈ st.session_ids_by_room_name, ∀ id ∈ p.2,
    id ∈ st.recipients_by_session_id

instance (st : ServerState) : Decidable (noDangling st) :=
  inferInstanceAs (Decidable (∀ p ∈ st.session_ids_by_room_name, ∀ id ∈ p.2,
    id ∈ st.recipients_by_session_id))

/-- Guard of one operation in a trace: join must name a session id that is
registered at that moment; every other operation is unguarded. -/
def goodTraceGuard (st : ServerState) : ServerOp → Bool
  | .join session_id _ => decide (session_id ∈ st.recipients_by_session_id)
  | _ => true

/-- Trace in which every join names a session id registered at the moment the
join executes. -/
def goodTrace (st : ServerState) : List ServerOp → Bool
  | [] => true
  | op :: rest => goodTraceGuard st op && goodTrace (step st op) rest

/-- Whitespace set of Rust char::is_whitespace: the Unicode White_Space
characters. -/
def isRustWhitespace (c : Char) : Bool :=
  c = ' ' || c = '\t' || c = '\n' || c = '\r' ||
  c = '\x0b' || c = '\x0c' || c.val = 0x85 || c.val = 0xa0 ||
  c.val = 0x1680 || (0x2000 ≤ c.val && c.val ≤ 0x200a) ||
  c.val = 0x2028 || c.val = 0x2029 || c.val = 0x202f || c.val = 0x205f ||
  c.val = 0x3000

/-- Rust str::trim: the string with leading and trailing whitespace removed. -/
def rustTrim (s : String) : String :=
  ⟨((s.data.dropWhile isRustWhitespace).reverse.dropWhile
      isRustWhitespace).reverse⟩

/-- Test for a leading character, as used for the reserved command marker. -/
def startsWithChar (s : String) (c : Char) : Bool :=
  match s.data with
  | [] => false
  | d :: _ => d = c

/-- Split of a character list at the first occurrence of sep, when present. -/
def splitFirst (sep : Char) : List Char → Option (List Char × List Char)
  | [] => none
  | c :: rest =>
    if c = sep then some ([], rest)
    else (splitFirst sep rest).map fun p => (c :: p.1, p.2)

/-- Rust splitn(2, ' ').collect(): the whole string when it holds no space,
otherwise the part before the first space and the remainder after it. -/
def splitnTwo (s : String) : List String :=
  match splitFirst ' ' s.data with
  | none => [s]
  | some (a, b) => [⟨a⟩, ⟨b⟩]

/-- Rust Debug formatting of a string, as used by the unknown-command error
frame.  The claims never inspect this branch; the common escapes are
modelled. -/
def rustDebugString (s : String) : String :=
  quoteEscaped s

/-- Observable actions of the session actor while handling one inbound text
frame: messages sent to the coordinator and text frames written back to the
peer. -/
inductive SessionEvent where
  | sendClientMessage (session_id : Nat) (room_name : String) (message : String)
  | sendJoinMessage (session_id : Nat) (room_name : String)
  | requestListRooms
  | replyText (text : String)
deriving DecidableEq

/-- Text arm of the session actor's StreamHandler (websocket_session_actor.rs,
lines 101-155): trim the frame; a trimmed message starting with the marker is
parsed as a command via splitn(2, ' '), otherwise the trimmed message is
relayed as a ClientMessage carrying the session's id and remembered room.
The result is the session's room name after the frame and the emitted
actions. -/
def handleTextMessage (session_id : Nat) (room_name : String) (text : String) :
    String × List SessionEvent :=
  let trimmed := rustTrim text
  if startsWithChar trimmed '/' then
    let words := splitnTwo trimmed
    if words.headD "" = "/list" then
      (room_name, [SessionEvent.requestListRooms])
    else if words.headD "" = "/join" then
      if words.length = 2 then
        let newRoom := words.getD 1 ""
        (newRoom, [SessionEvent.sendJoinMessage session_id newRoom,
                   SessionEvent.replyText "joined"])
      else
        (room_name, [SessionEvent.replyText "!!! room name is required"])
    else
      (room_name,
       [SessionEvent.replyText ("!!! unknown command: " ++ rustDebugString trimmed)])
  else
    (room_name, [SessionEvent.sendClientMessage session_id room_name trimmed])

theorem mem_insertId {l : List Nat} {a b : Nat} :
    a ∈ insertId l b ↔ a = b ∨ a ∈ l := by
  unfold insertId
  by_cases h : b ∈ l
  · simp only [if_pos h]
    constructor
    · exact Or.inr
    · rintro (rfl | ha)
      · exact h
      · exact ha
  · simp [if_neg h, or_comm]

theorem nodup_insertId {l : List Nat} (h : l.Nodup) (b : Nat) :
    (insertId l b).Nodup := by
  unfold insertId
  by_cases hb : b ∈ l
  · simpa [if_pos hb]
  · simp only [if_neg hb]
    simp [List.nodup_append, h, hb]

theorem mem_sendLoop {recips ids : List Nat} {message : String} {skip : Nat}
    {i : Nat} {m : String} :
    (i, m) ∈ sendLoop recips ids message skip ↔
      i ∈ ids ∧ i ≠ skip ∧ i ∈ recips ∧ m = message := by
  induction ids with
  | nil => simp [sendLoop]
  | cons id rest ih =>
    unfold sendLoop
    by_cases h1 : id ≠ skip
    · by_cases h2 : id ∈ recips
      · rw [if_pos h1, if_pos h2]
        simp only [List.mem_cons, Prod.mk.injEq, ih]
        constructor
        · rintro (⟨rfl, rfl⟩ | ⟨hi, hne, hr, hm⟩)
          · exact ⟨Or.inl rfl, h1, h2, rfl⟩
          · exact ⟨Or.inr hi, hne, hr, hm⟩
        · rintro ⟨rfl | hi, hne, hr, hm⟩
          · exact Or.inl ⟨rfl, hm⟩
          · exact Or.inr ⟨hi, hne, hr, hm⟩
      · rw [if_pos h1, if_neg h2, ih]
        constructor
        · rintro ⟨hi, hne, hr, hm⟩
          exact ⟨List.mem_cons_of_mem _ hi, hne, hr, hm⟩
        · rintro ⟨hi, hne, hr, hm⟩
          rcases List.mem_cons.mp hi with rfl | hi
          · exact absurd hr h2
          · exact ⟨hi, hne, hr, hm⟩
    · rw [if_neg h1, ih]
      push_neg at h1
      subst h1
      constructor
      · rintro ⟨hi, hne, hr, hm⟩
        exact ⟨List.mem_cons_of_mem _ hi, hne, hr, hm⟩
      · rintro ⟨hi, hne, hr, hm⟩
        rcases List.mem_cons.mp hi with rfl | hi
        · exact absurd rfl hne
        · exact ⟨hi, hne, hr, hm⟩

theorem mem_send_message {st : ServerState} {room_name message : String}
    {skip : Nat} {i : Nat} {m : String} :
    (i, m) ∈ send_message st room_name message skip ↔
      i ∈ roomMembersD st room_name ∧ i ≠ skip ∧
        i ∈ st.recipients_by_session_id ∧ m = message := by
  unfold send_message roomMembersD
  cases h : assocFind st.session_ids_by_room_name room_name with
  | none => simp
  | some ids => simp [mem_sendLoop]

theorem send_message_of_no_members {st : ServerState}
    {room_name message : String} {skip : Nat}
    (h : roomMembersD st room_name = []) :
    send_message st room_name message skip = [] := by
  unfold send_message
  unfold roomMembersD at h
  cases hf : assocFind st.session_ids_by_room_name room_name with
  | none => rfl
  | some ids =>
    rw [hf] at h
    simp only [Option.getD_some] at h
    subst h
    rfl

theorem assocFind_roomInsert_self (rooms : List (String × List Nat))
    (name : String) (id : Nat) :
    assocFind (roomInsert rooms name id) name =
      some (insertId ((assocFind rooms name).getD []) id) := by
  induction rooms with
  | nil => simp [roomInsert, assocFind, insertId]
  | cons p rest ih =>
    obtain ⟨n, ids⟩ := p
    by_cases h : n = name
    · subst h
      simp [roomInsert, assocFind]
    · simp [roomInsert, assocFind, h, ih]

theorem roomInsert_mem {name : String} {id : Nat} :
    ∀ {rooms : List (String × List Nat)} {p : String × List Nat},
      p ∈ roomInsert rooms name id →
      p ∈ rooms ∨
        ∃ ids, ((name, ids) ∈ rooms ∨ ids = []) ∧ p = (name, insertId ids id)
  | [], p, hp => by
    simp only [roomInsert, List.mem_singleton] at hp
    exact Or.inr ⟨[], Or.inr rfl, by simpa [insertId] using hp⟩
  | (n, ids) :: rest, p, hp => by
    by_cases h : n = name
    · subst h
      rw [roomInsert, if_pos rfl] at hp
      rcases List.mem_cons.mp hp with rfl | hp2
      · exact Or.inr ⟨ids, Or.inl (List.mem_cons_self _ _), rfl⟩
      · exact Or.inl (List.mem_cons_of_mem _ hp2)
    · rw [roomInsert, if_neg h] at hp
      rcases List.mem_cons.mp hp with rfl | hp2
      · exact Or.inl (List.mem_cons_self _ _)
      · rcases roomInsert_mem hp2 with hin | ⟨ids2, hids2, rfl⟩
        · exact Or.inl (List.mem_cons_of_mem _ hin)
        · rcases hids2 with hin | rfl
          · exact Or.inr ⟨ids2, Or.inl (List.mem_cons_of_mem _ hin), rfl⟩
          · exact Or.inr ⟨[], Or.inr rfl, rfl⟩

theorem mem_eraseFromAllRooms {rooms : List (String × List Nat)} {id : Nat}
    {p : String × List Nat} :
    p ∈ eraseFromAllRooms rooms id ↔
      ∃ q ∈ rooms, p = (q.1, q.2.erase id) := by
  unfold eraseFromAllRooms
  simp [List.mem_map, eq_comm]

theorem keys_eraseFromAllRooms (rooms : List (String × List Nat)) (id : Nat) :
    (eraseFromAllRooms rooms id).map Prod.fst = rooms.map Prod.fst := by
  induction rooms with
  | nil => rfl
  | cons p rest ih => simp [eraseFromAllRooms]

theorem mem_keys_roomInsert_self (rooms : List (String × List Nat))
    (name : String) (id : Nat) :
    name ∈ (roomInsert rooms name id).map Prod.fst := by
  induction rooms with
  | nil => simp [roomInsert]
  | cons p rest ih =>
    obtain ⟨n, ids⟩ := p
    by_cases h : n = name
    · subst h
      rw [roomInsert, if_pos rfl]
      simp
    · rw [roomInsert, if_neg h]
      simp only [List.map_cons, List.mem_cons]
      exact Or.inr ih

theorem mem_keys_roomInsert_of_mem {rooms : List (String × List Nat)}
    {name : String} {id : Nat} {k : String}
    (hk : k ∈ rooms.map Prod.fst) :
    k ∈ (roomInsert rooms name id).map Prod.fst := by
  induction rooms with
  | nil => simp at hk
  | cons p rest ih =>
    obtain ⟨n, ids⟩ := p
    simp only [List.map_cons, List.mem_cons] at hk
    by_cases h : n = name
    · subst h
      rw [roomInsert, if_pos rfl]
      simp only [List.map_cons, List.mem_cons]
      exact hk
    · rw [roomInsert, if_neg h]
      simp only [List.map_cons, List.mem_cons]
      rcases hk with rfl | hk
      · exact Or.inl rfl
      · exact Or.inr (ih hk)

theorem sendLoopAttempt_all_open (recips : List Nat) (ids : List Nat)
    (message : String) (skip : Nat) :
    sendLoopAttempt recips [] ids message skip =
      (sendLoop recips ids message skip, false) := by
  induction ids with
  | nil => rfl
  | cons id rest ih =>
    unfold sendLoopAttempt sendLoop
    by_cases h1 : id ≠ skip
    · by_cases h2 : id ∈ recips
      · simp [h1, h2, ih]
      · simp [h1, h2, ih]
    · simp [h1, ih]

theorem step_connect (st : ServerState) (room_name : String) (rng_value : Nat) :
    step st (ServerOp.connect room_name rng_value) =
      { recipients_by_session_id :=
          insertId st.recipients_by_session_id rng_value,
        session_ids_by_room_name :=
          roomInsert st.session_ids_by_room_name room_name rng_value } := rfl

theorem step_disconnect (st : ServerState) (session_id : Nat) :
    step st (ServerOp.disconnect session_id) =
      if session_id ∈ st.recipients_by_session_id then
        { recipients_by_session_id :=
            st.recipients_by_session_id.erase session_id,
          session_ids_by_room_name :=
            eraseFromAllRooms st.session_ids_by_room_name session_id }
      else st := by
  unfold step handleDisconnectMessage
  by_cases h : session_id ∈ st.recipients_by_session_id <;> simp [h]

theorem step_join (st : ServerState) (session_id : Nat) (room_name : String) :
    step st (ServerOp.join session_id room_name) =
      { recipients_by_session_id := st.recipients_by_session_id,
        session_ids_by_room_name :=
          roomInsert (eraseFromAllRooms st.session_ids_by_room_name session_id)
            room_name session_id } := rfl

theorem WF_noDangling_step (st : ServerState) (op : ServerOp)
    (hwf : WF st) (hnd : noDangling st)
    (hop : goodTraceGuard st op = true) :
    WF (step st op) ∧ noDangling (step st op) := by
  obtain ⟨hwf1, hwf2⟩ := hwf
  cases op with
  | connect room_name rng_value =>
    rw [step_connect]
    refine ⟨⟨nodup_insertId hwf1 _, ?_⟩, ?_⟩
    · intro p hp
      rcases roomInsert_mem hp with hin | ⟨ids, hids, rfl⟩
      · exact hwf2 p hin
      · rcases hids with hin | rfl
        · exact nodup_insertId (hwf2 _ hin) _
        · exact nodup_insertId List.nodup_nil _
    · intro p hp x hx
      rcases roomInsert_mem hp with hin | ⟨ids, hids, rfl⟩
      · exact mem_insertId.mpr (Or.inr (hnd p hin x hx))
      · rcases mem_insertId.mp hx with rfl | hx2
        · exact mem_insertId.mpr (Or.inl rfl)
        · rcases hids with hin | rfl
          · exact mem_insertId.mpr (Or.inr (hnd _ hin x hx2))
          · simp at hx2
  | disconnect session_id =>
    rw [step_disconnect]
    by_cases h : session_id ∈ st.recipients_by_session_id
    · rw [if_pos h]
      refine ⟨⟨hwf1.erase _, ?_⟩, ?_⟩
      · intro p hp
        rcases mem_eraseFromAllRooms.mp hp with ⟨q, hq, rfl⟩
        exact (hwf2 q hq).erase _
      · intro p hp x hx
        rcases mem_eraseFromAllRooms.mp hp with ⟨q, hq, rfl⟩
        have hx2 := ((hwf2 q hq).mem_erase_iff).mp hx
        exact (List.mem_erase_of_ne hx2.1).mpr (hnd q hq x hx2.2)
    · rw [if_neg h]
      exact ⟨⟨hwf1, hwf2⟩, hnd⟩
  | join session_id room_name =>
    rw [step_join]
    have hsid : session_id ∈ st.recipients_by_session_id := by
      simpa [goodTraceGuard] using hop
    refine ⟨⟨hwf1, ?_⟩, ?_⟩
    · intro p hp
      rcases roomInsert_mem hp with hin | ⟨ids, hids, rfl⟩
      · rcases mem_eraseFromAllRooms.mp hin with ⟨q, hq, rfl⟩
        exact (hwf2 q hq).erase _
      · rcases hids with hin | rfl
        · rcases mem_eraseFromAllRooms.mp hin with ⟨q, hq, heq⟩
          have : ids = q.2.erase session_id := congrArg Prod.snd heq
          rw [this]
          exact nodup_insertId ((hwf2 q hq).erase _) _
        · exact nodup_insertId List.nodup_nil _
    · intro p hp x hx
      rcases roomInsert_mem hp with hin | ⟨ids, hids, rfl⟩
      · rcases mem_eraseFromAllRooms.mp hin with ⟨q, hq, rfl⟩
        exact hnd q hq x (List.mem_of_mem_erase hx)
      · rcases mem_insertId.mp hx with rfl | hx2
        · exact hsid
        · rcases hids with hin | rfl
          · rcases mem_eraseFromAllRooms.mp hin with ⟨q, hq, heq⟩
            have : ids = q.2.erase session_id := congrArg Prod.snd heq
            rw [this] at hx2
            exact hnd q hq x (List.mem_of_mem_erase hx2)
          · simp at hx2
  | clientMessage a b c => exact ⟨⟨hwf1, hwf2⟩, hnd⟩
  | broadcastAppState a => exact ⟨⟨hwf1, hwf2⟩, hnd⟩
  | listRooms => exact ⟨⟨hwf1, hwf2⟩, hnd⟩

theorem WF_noDangling_runOps (ops : List ServerOp) :
    ∀ st : ServerState, WF st → noDangling st → goodTrace st ops = true →
      WF (runOps st ops) ∧ noDangling (runOps st ops) := by
  induction ops with
  | nil => exact fun st hwf hnd _ => ⟨hwf, hnd⟩
  | cons op rest ih =>
    intro st hwf hnd htr
    rw [goodTrace, Bool.and_eq_true] at htr
    have h := WF_noDangling_step st op hwf hnd htr.1
    exact ih (step st op) h.1 h.2 htr.2

theorem mem_keys_step {st : ServerState} {r : String} (op : ServerOp)
    (h : r ∈ handleListRoomsMessage st) :
    r ∈ handleListRoomsMessage (step st op) := by
  cases op with
  | connect room_name rng_value =>
    rw [step_connect]
    exact mem_keys_roomInsert_of_mem h
  | disconnect session_id =>
    rw [step_disconnect]
    by_cases hmem : session_id ∈ st.recipients_by_session_id
    · rw [if_pos hmem]
      show r ∈ (eraseFromAllRooms st.session_ids_by_room_name session_id).map
        Prod.fst
      rw [keys_eraseFromAllRooms]
      exact h
    · rw [if_neg hmem]
      exact h
  | join session_id room_name =>
    rw [step_join]
    refine mem_keys_roomInsert_of_mem ?_
    rw [keys_eraseFromAllRooms]
    exact h
  | clientMessage a b c => exact h
  | broadcastAppState a => exact h
  | listRooms => exact h

theorem mem_keys_runOps {r : String} (ops : List ServerOp) :
    ∀ st : ServerState, r ∈ handleListRoomsMessage st →
      r ∈ handleListRoomsMessage (runOps st ops) := by
  induction ops with
  | nil => exact fun st h => h
  | cons op rest ih => exact fun st h => ih (step st op) (mem_keys_step op h)

/-- C1: evaluation of the Connect handler at a colliding output of the random
number generator.  With session id 7 already live (registered in the handle
map), an RNG output of 7 makes Connect return 7 — an id already live — since
the handler performs no collision check, contradicting the claim that the
returned id never equals an id already present in the handle map. -/
theorem connect_returns_live_id_on_rng_collision :
    (handleConnectMessage
        { recipients_by_session_id := [7],
          session_ids_by_room_name := [("lobby", [7])] } "lobby" 7).2 = 7 ∧
      7 ∈ ({ recipients_by_session_id := [7],
             session_ids_by_room_name := [("lobby", [7])] } :
            ServerState).recipients_by_session_id := by decide

/-- C2 counterexample: a coordinator state in which session 2 is a current
member of room r but is not registered in the handle map (such a state is
reachable: Join performs no registration check).  Relay from sender 1 then
delivers nothing, although the claim requires every other current member —
including 2 — to receive the payload. -/
theorem relay_misses_dangling_member :
    handleClientMessage
        { recipients_by_session_id := [1],
          session_ids_by_room_name := [("r", [1, 2])] } 1 "r" "p" = [] ∧
      2 ∈ roomMembersD
        { recipients_by_session_id := [1],
          session_ids_by_room_name := [("r", [1, 2])] } "r" ∧
      (2 : Nat) ≠ 1 := by decide

/-- C2 amended: Relay(sender, room, payload) delivers the payload exactly to
the current members of the room, other than the sender, that are registered
in the handle map; the sender never receives it. -/
theorem relay_delivers_exactly_registered_members (st : ServerState)
    (session_id : Nat) (room_name message : String) (i : Nat) (m : String) :
    (i, m) ∈ handleClientMessage st session_id room_name message ↔
      i ∈ roomMembersD st room_name ∧ i ≠ session_id ∧
        i ∈ st.recipients_by_session_id ∧ m = message :=
  mem_send_message

/-- C2 amended, witness: in a concrete state the registered non-sender member
2 receives the payload. -/
theorem relay_delivers_exactly_registered_members_witness :
    (2, "p") ∈ handleClientMessage
      { recipients_by_session_id := [2],
        session_ids_by_room_name := [("r", [1, 2])] } 1 "r" "p" :=
  (relay_delivers_exactly_registered_members
      { recipients_by_session_id := [2],
        session_ids_by_room_name := [("r", [1, 2])] } 1 "r" "p" 2 "p").mpr
    ⟨by decide, by decide, by decide, rfl⟩

/-- C3: evaluation of the fan-out at a failing recipient.  The code calls
do_send(..).unwrap() on each delivery, so with room r = (1, 2), both ids
registered, and recipient 1's mailbox closed, Relay from sender 3 panics and
delivers to nobody — recipient 2 is never reached — whereas with no failure
both receive.  This contradicts the claim (and matches the spec's own design
note that the original treats failed delivery as an unwrap-time fatal
condition): a failed delivery aborts the remaining deliveries and propagates
a panic. -/
theorem send_message_panics_on_failed_delivery :
    send_message_attempt
        { recipients_by_session_id := [1, 2],
          session_ids_by_room_name := [("r", [1, 2])] } [1] "r" "m" 3 =
      ([], true) ∧
    send_message_attempt
        { recipients_by_session_id := [1, 2],
          session_ids_by_room_name := [("r", [1, 2])] } [] "r" "m" 3 =
      ([(1, "m"), (2, "m")], false) := by decide

/-- C4 counterexample: from the initial empty state, the single operation
Join(5, r) — with 5 unregistered — produces a reachable state whose room r
contains 5 while the handle map is empty, so the no-dangling-membership
invariant does not hold in every reachable state. -/
theorem dangling_membership_reachable :
    ¬ noDangling (runOps initialState [ServerOp.join 5 "r"]) := by decide

/-- C4 amended: in every state reachable from the initial empty state by a
sequence of operations in which every Join names a session id registered at
the moment the Join executes, every session id present in any room's
membership set is also present in the handle map. -/
theorem no_dangling_membership_of_guarded_trace (ops : List ServerOp)
    (h : goodTrace initialState ops = true) :
    noDangling (runOps initialState ops) :=
  (WF_noDangling_runOps ops initialState
    ⟨List.nodup_nil, by intro p hp; simp [initialState] at hp⟩
    (by intro p hp; simp [initialState] at hp) h).2

/-- C4 amended, witness: a concrete guarded trace whose final state has no
dangling membership. -/
theorem no_dangling_membership_of_guarded_trace_witness :
    goodTrace initialState
        [ServerOp.connect "a" 1, ServerOp.connect "a" 2, ServerOp.join 1 "b",
         ServerOp.clientMessage 1 "b" "x", ServerOp.broadcastAppState "a",
         ServerOp.disconnect 2, ServerOp.listRooms] = true ∧
      noDangling (runOps initialState
        [ServerOp.connect "a" 1, ServerOp.connect "a" 2, ServerOp.join 1 "b",
         ServerOp.clientMessage 1 "b" "x", ServerOp.broadcastAppState "a",
         ServerOp.disconnect 2, ServerOp.listRooms]) :=
  ⟨by decide, no_dangling_membership_of_guarded_trace _ (by decide)⟩

/-- C5 counterexample: Join(5, r) in the initial empty state, where 5 is
unregistered, changes the coordinator state (it creates room r with member
5), so Join of an unknown session id is not a no-op. -/
theorem join_unknown_id_not_noop :
    (5 : Nat) ∉ initialState.recipients_by_session_id ∧
      (handleJoinMessage initialState 5 "r").1 ≠ initialState := by decide

/-- C5 amended: Join with an unregistered session id leaves the handle map
unchanged but is not a no-op on membership: the unknown id is still inserted
into the target room's member set (the handler performs no registration
check), and no message is delivered to the unknown id itself. -/
theorem join_unknown_id_behavior (st : ServerState) (session_id : Nat)
    (room_name : String) (h : session_id ∉ st.recipients_by_session_id) :
    (handleJoinMessage st session_id room_name).1.recipients_by_session_id =
        st.recipients_by_session_id ∧
      session_id ∈
        roomMembersD (handleJoinMessage st session_id room_name).1 room_name ∧
      ∀ d ∈ (handleJoinMessage st session_id room_name).2, d.1 ≠ session_id := by
  refine ⟨rfl, ?_, ?_⟩
  · show session_id ∈ (assocFind (roomInsert
      (eraseFromAllRooms st.session_ids_by_room_name session_id) room_name
      session_id) room_name).getD []
    rw [assocFind_roomInsert_self]
    simp [mem_insertId]
  · rintro ⟨i, m⟩ hd
    rcases List.mem_append.mp hd with h1 | h2
    · rcases List.mem_flatMap.mp h1 with ⟨r, hr, hdr⟩
      have hm := mem_send_message.mp hdr
      exact fun he => h (he ▸ hm.2.2.1)
    · exact (mem_send_message.mp h2).2.1

/-- C5 amended, witness: a concrete state with 5 unregistered in which Join
keeps the handle map, inserts 5 into the room, and delivers nothing to 5. -/
theorem join_unknown_id_behavior_witness :
    ((handleJoinMessage
        { recipients_by_session_id := [9],
          session_ids_by_room_name := [("a", [9])] } 5 "r").1).recipients_by_session_id = [9] ∧
      5 ∈ roomMembersD (handleJoinMessage
        { recipients_by_session_id := [9],
          session_ids_by_room_name := [("a", [9])] } 5 "r").1 "r" :=
  have h := join_unknown_id_behavior
    { recipients_by_session_id := [9],
      session_ids_by_room_name := [("a", [9])] } 5 "r" (by decide)
  ⟨h.1, h.2.1⟩

/-- C6 counterexample: a coordinator state whose room r has members 0 and 2,
with only 0 registered.  Session id 0 is a possible RNG output, yet Broadcast
excludes it (the handler passes skip id 0 to the fan-out), and the
unregistered member 2 receives nothing either, so Broadcast does not deliver
to every current member with no excluded sender. -/
theorem broadcast_skips_session_zero :
    handleBroadcastAppStateMessage
        { recipients_by_session_id := [0],
          session_ids_by_room_name := [("r", [0, 2])] } [] "r" = [] ∧
      0 ∈ roomMembersD
        { recipients_by_session_id := [0],
          session_ids_by_room_name := [("r", [0, 2])] } "r" ∧
      0 ∈ ({ recipients_by_session_id := [0],
             session_ids_by_room_name := [("r", [0, 2])] } :
            ServerState).recipients_by_session_id ∧
      2 ∈ roomMembersD
        { recipients_by_session_id := [0],
          session_ids_by_room_name := [("r", [0, 2])] } "r" := by decide

/-- C6 amended: Broadcast delivers the serialized snapshot payload exactly to
the current members of the room that are registered in the handle map and
whose session id is not 0 (the skip value the handler passes to the fan-out),
and broadcasting to a room with no members is a no-op. -/
theorem broadcast_delivers_to_registered_nonzero_members (st : ServerState)
    (app : List (String × Playlist)) (user_id : String) (i : Nat) (m : String) :
    ((i, m) ∈ handleBroadcastAppStateMessage st app user_id ↔
      i ∈ roomMembersD st user_id ∧ i ≠ 0 ∧
        i ∈ st.recipients_by_session_id ∧ m = broadcastPayload app user_id) ∧
    (roomMembersD st user_id = [] →
      handleBroadcastAppStateMessage st app user_id = []) :=
  ⟨mem_send_message, fun h => send_message_of_no_members h⟩

/-- C6 amended, witness: a registered member with nonzero id receives the
broadcast payload, and broadcasting to an absent room delivers nothing. -/
theorem broadcast_delivers_to_registered_nonzero_members_witness :
    (3, broadcastPayload [] "r") ∈
      handleBroadcastAppStateMessage
        { recipients_by_session_id := [3],
          session_ids_by_room_name := [("r", [3])] } [] "r" ∧
    handleBroadcastAppStateMessage
        { recipients_by_session_id := [3],
          session_ids_by_room_name := [("other", [4])] } [] "r" = [] :=
  ⟨(broadcast_delivers_to_registered_nonzero_members
      { recipients_by_session_id := [3],
        session_ids_by_room_name := [("r", [3])] } [] "r" 3
      (broadcastPayload [] "r")).1.mpr ⟨by decide, by decide, by decide, rfl⟩,
   (broadcast_delivers_to_registered_nonzero_members
      { recipients_by_session_id := [3],
        session_ids_by_room_name := [("other", [4])] } [] "r" 0 "").2
     (by decide)⟩

/-- C7: Disconnect is idempotent.  On a state whose handle-map key list is
duplicate-free (as every HashMap key set is), a second Disconnect of the same
id is a no-op producing no deliveries, so two Disconnects in a row have the
observable effect of one; and Disconnect of an id not registered leaves the
state unchanged, delivers nothing, and raises no error (the handler is
total). -/
theorem disconnect_idempotent (st : ServerState) (session_id : Nat)
    (h : st.recipients_by_session_id.Nodup) :
    handleDisconnectMessage (handleDisconnectMessage st session_id).1
        session_id = ((handleDisconnectMessage st session_id).1, []) ∧
      (session_id ∉ st.recipients_by_session_id →
        handleDisconnectMessage st session_id = (st, [])) := by
  constructor
  · by_cases hm : session_id ∈ st.recipients_by_session_id
    · have h1 : handleDisconnectMessage st session_id =
          ({ recipients_by_session_id :=
               st.recipients_by_session_id.erase session_id,
             session_ids_by_room_name :=
               eraseFromAllRooms st.session_ids_by_room_name session_id }, []) := by
        simp [handleDisconnectMessage, hm]
      have h2 : session_id ∉ st.recipients_by_session_id.erase session_id :=
        fun hx => (h.mem_erase_iff.mp hx).1 rfl
      rw [h1]
      simp [handleDisconnectMessage, h2]
    · have h1 : handleDisconnectMessage st session_id = (st, []) := by
        simp [handleDisconnectMessage, hm]
      rw [h1]
      simp [handleDisconnectMessage, hm]
  · intro hm
    simp [handleDisconnectMessage, hm]

/-- C7 witness: idempotence at a concrete state with a registered id, and the
no-op at an unregistered id. -/
theorem disconnect_idempotent_witness :
    handleDisconnectMessage
        (handleDisconnectMessage
          { recipients_by_session_id := [4],
            session_ids_by_room_name := [("x", [4])] } 4).1 4 =
      ((handleDisconnectMessage
          { recipients_by_session_id := [4],
            session_ids_by_room_name := [("x", [4])] } 4).1, []) ∧
    handleDisconnectMessage
        { recipients_by_session_id := [4],
          session_ids_by_room_name := [("x", [4])] } 9 =
      ({ recipients_by_session_id := [4],
         session_ids_by_room_name := [("x", [4])] }, []) :=
  ⟨(disconnect_idempotent
      { recipients_by_session_id := [4],
        session_ids_by_room_name := [("x", [4])] } 4 (by decide)).1,
   (disconnect_idempotent
      { recipients_by_session_id := [4],
        session_ids_by_room_name := [("x", [4])] } 9 (by decide)).2
     (by decide)⟩

/-- C8: for a room with no record in the shared state map, Broadcast
serializes the default snapshot — the JSON object with songRequestsEnabled
false and songRequests the empty list — and fans exactly that payload out,
rather than failing. -/
theorem broadcast_default_snapshot (st : ServerState)
    (app : List (String × Playlist)) (user_id : String)
    (h : assocFind app user_id = none) :
    broadcastPayload app user_id =
        "\x7b\"songRequestsEnabled\":false,\"songRequests\":[]\x7d" ∧
      handleBroadcastAppStateMessage st app user_id =
        send_message st user_id
          "\x7b\"songRequestsEnabled\":false,\"songRequests\":[]\x7d" 0 := by
  have hp : broadcastPayload app user_id =
      "\x7b\"songRequestsEnabled\":false,\"songRequests\":[]\x7d" := by
    unfold broadcastPayload
    rw [h]
    decide
  refine ⟨hp, ?_⟩
  show send_message st user_id (broadcastPayload app user_id) 0 = _
  rw [hp]

/-- C8 witness: the default payload at an empty shared state map. -/
theorem broadcast_default_snapshot_witness :
    broadcastPayload [] "alice" =
      "\x7b\"songRequestsEnabled\":false,\"songRequests\":[]\x7d" :=
  (broadcast_default_snapshot initialState [] "alice" rfl).1

/-- C9 counterexample: the inbound frame " hello " (with surrounding spaces)
does not start with the command marker, yet the session relays the trimmed
text "hello" rather than the verbatim frame, so the forwarded payload is not
character-for-character identical to the inbound text. -/
theorem relay_payload_trimmed_not_verbatim :
    (handleTextMessage 7 "r" " hello ").2 =
        [SessionEvent.sendClientMessage 7 "r" "hello"] ∧
      " hello " ≠ "hello" := by decide

/-- C9 amended: for every inbound text frame whose trimmed form does not
start with the reserved command marker, the session forwards the trimmed text
(leading and trailing whitespace removed, otherwise unchanged) to the
coordinator's Relay, with this session's id as sender and its currently
remembered room name as target, and the remembered room is unchanged. -/
theorem noncommand_text_forwards_trimmed (session_id : Nat)
    (room_name text : String)
    (h : startsWithChar (rustTrim text) '/' = false) :
    handleTextMessage session_id room_name text =
      (room_name,
       [SessionEvent.sendClientMessage session_id room_name (rustTrim text)]) := by
  simp [handleTextMessage, h]

/-- C9 amended, witness: a concrete non-command frame is forwarded to Relay
with the session's id and room. -/
theorem noncommand_text_forwards_trimmed_witness :
    handleTextMessage 1 "lobby" "hello world" =
      ("lobby", [SessionEvent.sendClientMessage 1 "lobby" "hello world"]) :=
  (noncommand_text_forwards_trimmed 1 "lobby" "hello world" (by decide)).trans
    (by decide)

/-- C10: the set of room names tracked by the coordinator never shrinks: any
name listed by ListRooms is still listed after every sequence of operations,
and a room created by Connect or by Join remains listed by ListRooms after
every subsequent sequence of operations, even after all its members leave. -/
theorem room_names_persist_in_list_rooms (st : ServerState)
    (ops : List ServerOp) (room_name : String) (rng_value session_id : Nat) :
    (∀ r ∈ handleListRoomsMessage st,
        r ∈ handleListRoomsMessage (runOps st ops)) ∧
      room_name ∈ handleListRoomsMessage
        (runOps (step st (ServerOp.connect room_name rng_value)) ops) ∧
      room_name ∈ handleListRoomsMessage
        (runOps (step st (ServerOp.join session_id room_name)) ops) := by
  refine ⟨fun r hr => mem_keys_runOps ops st hr, ?_, ?_⟩
  · refine mem_keys_runOps ops _ ?_
    rw [step_connect]
    exact mem_keys_roomInsert_self _ _ _
  · refine mem_keys_runOps ops _ ?_
    rw [step_join]
    exact mem_keys_roomInsert_self _ _ _

/-- C10 witness: a room created by Connect is still listed after its only
member disconnects and another session joins elsewhere. -/
theorem room_names_persist_in_list_rooms_witness :
    "lobby" ∈ handleListRoomsMessage
      (runOps (step initialState (ServerOp.connect "lobby" 1))
        [ServerOp.disconnect 1, ServerOp.join 2 "b"]) :=
  (room_names_persist_in_list_rooms initialState
    [ServerOp.disconnect 1, ServerOp.join 2 "b"] "lobby" 1 2).2.1

end SongRequestServer
